import Mathlib

/-!
Shallow embedding of the `easytcp` TCP server (`server.go`) in Lean 4.

The Go code is modelled as pure functions: configuration processing
(`NewServer`) as a function on records, and the effectful procedures
(`Serve`, `acceptLoop`, `handleConn`, `Stop`) as functions from an explicit
environment (the results the operating system and network would deliver)
to a trace of observable actions plus a result.  Go `int` is `Int`,
`time.Duration` is `Int` nanoseconds, goroutine spawns and channel
operations become trace actions.
-/

namespace EasyTCP

/-- Go `time.Duration`, in nanoseconds. -/
abbrev Duration := Int

/-- `DefaultReqQueueSize = 1024` from the `const` block. -/
def DefaultReqQueueSize : Int := 1024

/-- `DefaultRespQueueSize = 1024` from the `const` block. -/
def DefaultRespQueueSize : Int := 1024

/-- `DefaultWriteAttemptTimes = 1` from the `const` block. -/
def DefaultWriteAttemptTimes : Int := 1

/-- `tempErrDelay = time.Millisecond * 5` from the `const` block. -/
def tempErrDelay : Duration := 5 * 1000000

/-- A `Packer` value; `NewDefaultPacker()` yields `defaultPacker`,
any user-supplied packer is `custom`. -/
inductive PackerT where
  | defaultPacker
  | custom (id : Nat)
deriving DecidableEq, Repr

/-- A `Codec` value (may be nil in Go, hence used under `Option`). -/
inductive CodecT where
  | custom (id : Nat)
deriving DecidableEq, Repr

/-- `ServerOption` struct.  `Packer`/`Codec` are `Option` because the Go
fields are interface values that may be nil. -/
structure ServerOption where
  SocketReadBufferSize : Int
  SocketWriteBufferSize : Int
  SocketSendDelay : Bool
  ReadTimeout : Duration
  WriteTimeout : Duration
  Packer : Option PackerT
  Codec : Option CodecT
  ReqQueueSize : Int
  RespQueueSize : Int
  DoNotPrintRoutes : Bool
  WriteAttemptTimes : Int
deriving DecidableEq, Repr

/-- The configuration part of the `Server` struct.  The router is
represented by its request-queue capacity (`router = newRouter(reqQueueSize)`);
channels `accepting`/`stopped` are runtime state, kept separately. -/
structure Server where
  socketReadBufferSize : Int
  socketWriteBufferSize : Int
  socketSendDelay : Bool
  respQueueSize : Int
  readTimeout : Duration
  writeTimeout : Duration
  Packer : PackerT
  Codec : Option CodecT
  printRoutes : Bool
  reqQueueSize : Int
  writeAttemptTimes : Int
deriving DecidableEq, Repr

/-- `NewServer(opt *ServerOption) *Server`: fills in defaults exactly as the
Go code does — `Packer` when nil, `ReqQueueSize` when `< 0` (assigned
`DefaultRespQueueSize`), `RespQueueSize` when `< 0` (assigned
`DefaultReqQueueSize`), `WriteAttemptTimes` when `<= 0`.  Freshly made
channels mean the stopped flag starts unset, modelled in `ServerState`. -/
def NewServer (opt : ServerOption) : Server :=
  let packer := match opt.Packer with
    | none => PackerT.defaultPacker
    | some p => p
  let reqQueueSize := if opt.ReqQueueSize < 0 then DefaultRespQueueSize else opt.ReqQueueSize
  let respQueueSize := if opt.RespQueueSize < 0 then DefaultReqQueueSize else opt.RespQueueSize
  let writeAttemptTimes :=
    if opt.WriteAttemptTimes ≤ 0 then DefaultWriteAttemptTimes else opt.WriteAttemptTimes
  { socketReadBufferSize := opt.SocketReadBufferSize
    socketWriteBufferSize := opt.SocketWriteBufferSize
    socketSendDelay := opt.SocketSendDelay
    respQueueSize := respQueueSize
    readTimeout := opt.ReadTimeout
    writeTimeout := opt.WriteTimeout
    Packer := packer
    Codec := opt.Codec
    printRoutes := !opt.DoNotPrintRoutes
    reqQueueSize := reqQueueSize
    writeAttemptTimes := writeAttemptTimes }

/-- A Go error as seen by the accept loop: its message, whether the value
implements `net.Error` (so `err.(net.Error)` succeeds), and what its
`Temporary()` method returns. -/
structure NetErr where
  msg : String
  isNetError : Bool
  temporary : Bool
deriving DecidableEq, Repr

/-- An accepted `*net.TCPConn`, described by an identifier and by the
results the kernel would give to `SetReadBuffer` / `SetWriteBuffer` /
`SetNoDelay` (`none` = success, `some msg` = error). -/
structure Conn where
  id : Nat
  setReadBufferErr : Option String
  setWriteBufferErr : Option String
  setNoDelayErr : Option String
deriving DecidableEq, Repr

/-- The environment of one iteration of `acceptLoop`: whether the
`stopped` channel is observed closed at the check at the top of the loop,
the result of `Listener.Accept()`, and whether `stopped` is observed
closed at the check performed after a failed accept. -/
structure AcceptEnv where
  stoppedAtTop : Bool
  result : Except NetErr Conn
  stoppedAfterErr : Bool
deriving Repr

/-- Observable actions of `acceptLoop`. -/
inductive Action where
  | sleep (d : Duration)
  | setReadBuffer (connId : Nat) (size : Int)
  | setWriteBuffer (connId : Nat) (size : Int)
  | setNoDelay (connId : Nat) (noDelay : Bool)
  | spawnHandleConn (connId : Nat)
deriving DecidableEq, Repr

/-- The value `acceptLoop` returns (or `running`, when the supplied
environment list is exhausted with the loop still going). -/
inductive LoopResult where
  | errServerStopped
  | acceptErr (msg : String)
  | setReadBufferErr (msg : String)
  | setWriteBufferErr (msg : String)
  | setNoDelayErr (msg : String)
  | running
deriving DecidableEq, Repr

/-- The per-connection body of `acceptLoop` (lines 141–156): apply the
read-buffer size when `> 0`, the write-buffer size when `> 0`,
`SetNoDelay(false)` when `socketSendDelay`, returning early with the
wrapped error if a setter fails, else spawn `handleConn`. -/
def processConn (s : Server) (c : Conn) : List Action × Option LoopResult :=
  let readStep : List Action × Option String :=
    if s.socketReadBufferSize > 0 then
      ([Action.setReadBuffer c.id s.socketReadBufferSize], c.setReadBufferErr)
    else ([], none)
  match readStep with
  | (a1, some e) => (a1, some (LoopResult.setReadBufferErr ("conn set read buffer err: " ++ e)))
  | (a1, none) =>
    let writeStep : List Action × Option String :=
      if s.socketWriteBufferSize > 0 then
        ([Action.setWriteBuffer c.id s.socketWriteBufferSize], c.setWriteBufferErr)
      else ([], none)
    match writeStep with
    | (a2, some e) =>
      (a1 ++ a2, some (LoopResult.setWriteBufferErr ("conn set write buffer err: " ++ e)))
    | (a2, none) =>
      let delayStep : List Action × Option String :=
        if s.socketSendDelay then
          ([Action.setNoDelay c.id false], c.setNoDelayErr)
        else ([], none)
      match delayStep with
      | (a3, some e) =>
        (a1 ++ a2 ++ a3, some (LoopResult.setNoDelayErr ("conn set no delay err: " ++ e)))
      | (a3, none) =>
        (a1 ++ a2 ++ a3 ++ [Action.spawnHandleConn c.id], none)

/-- `acceptLoop` (lines 120–158) over a list of per-iteration
environments.  Each iteration: return `ErrServerStopped` if stopped;
accept; on error return `ErrServerStopped` if stopped, sleep
`tempErrDelay` and continue if the error is a temporary `net.Error`,
else return the wrapped accept error; on success run the connection body. -/
def acceptLoop (s : Server) : List AcceptEnv → List Action × LoopResult
  | [] => ([], LoopResult.running)
  | env :: rest =>
    if env.stoppedAtTop then ([], LoopResult.errServerStopped)
    else
      match env.result with
      | Except.error err =>
        if env.stoppedAfterErr then ([], LoopResult.errServerStopped)
        else if err.isNetError ∧ err.temporary then
          let t := acceptLoop s rest
          (Action.sleep tempErrDelay :: t.1, t.2)
        else ([], LoopResult.acceptErr ("accept err: " ++ err.msg))
      | Except.ok conn =>
        match processConn s conn with
        | (as, some r) => (as, r)
        | (as, none) =>
          let t := acceptLoop s rest
          (as ++ t.1, t.2)

/-- The environment `Serve` runs in: either `net.ResolveTCPAddr` fails,
or `net.ListenTCP` fails, or both succeed and the accept loop runs with
the given per-iteration environments. -/
inductive ServeEnv where
  | resolveErr (msg : String)
  | listenErr (msg : String)
  | ok (loopEnv : List AcceptEnv)
deriving Repr

/-- Observable actions of `Serve` before and during the accept loop. -/
inductive ServeAction where
  | printHandlers
  | spawnConsumeRequest
  | loopAction (a : Action)
deriving DecidableEq, Repr

/-- The value returned by `Serve`. -/
inductive ServeResult where
  | resolveError (msg : String)
  | listenError (msg : String)
  | fromLoop (r : LoopResult)
deriving DecidableEq, Repr

/-- `Serve` (lines 101–116): resolve the address, listen, optionally print
routes, spawn `router.consumeRequest`, then run `acceptLoop` and return
its result.  Resolve/listen errors are returned at once. -/
def Serve (s : Server) (env : ServeEnv) : List ServeAction × ServeResult :=
  match env with
  | ServeEnv.resolveErr m => ([], ServeResult.resolveError m)
  | ServeEnv.listenErr m => ([], ServeResult.listenError m)
  | ServeEnv.ok loopEnv =>
    let pre := (if s.printRoutes then [ServeAction.printHandlers] else [])
      ++ [ServeAction.spawnConsumeRequest]
    let t := acceptLoop s loopEnv
    (pre ++ t.1.map ServeAction.loopAction, ServeResult.fromLoop t.2)

/-- Observable actions of `handleConn`, in program order.  Goroutine
spawns (`go ...`) are recorded at the point they are issued; `waitSessionClosed`
is the blocking receive `<-sess.closed`. -/
inductive HAction where
  | newSession
  | sessionsAdd
  | spawnOnSessionCreate
  | spawnReadInbound
  | spawnWriteOutbound
  | waitSessionClosed
  | sessionsRemove
  | spawnOnSessionClose
  | connClose
deriving DecidableEq, Repr

/-- `handleConn` (lines 163–186) as the sequence of actions it performs:
create the session, add it to the global registry, optionally spawn the
`OnSessionCreate` hook, spawn the inbound and outbound tasks, block on the
`closed` channel of the session, remove the session from the registry,
optionally spawn the `OnSessionClose` hook, close the connection.
`hasOnSessionCreate` / `hasOnSessionClose` state whether the respective
hook fields are non-nil. -/
def handleConn (hasOnSessionCreate hasOnSessionClose : Bool) : List HAction :=
  [HAction.newSession, HAction.sessionsAdd]
  ++ (if hasOnSessionCreate then [HAction.spawnOnSessionCreate] else [])
  ++ [HAction.spawnReadInbound, HAction.spawnWriteOutbound,
      HAction.waitSessionClosed, HAction.sessionsRemove]
  ++ (if hasOnSessionClose then [HAction.spawnOnSessionClose] else [])
  ++ [HAction.connClose]

/-- Runtime state relevant to `Stop`: whether the `stopped` channel has
already been closed, the session ids currently in the global registry,
and the error `Listener.Close()` would return (`none` = success). -/
structure ServerState where
  stoppedClosed : Bool
  sessions : List Nat
  listenerCloseErr : Option String
deriving DecidableEq, Repr

/-- Observable actions of `Stop`, in program order. -/
inductive StopAction where
  | closeStoppedChan
  | closeSession (id : Nat)
  | routerStop
  | listenerClose
deriving DecidableEq, Repr

/-- A Go runtime panic.  `close` on an already-closed channel panics. -/
inductive GoPanic where
  | closeOfClosedChannel
deriving DecidableEq, Repr

/-- `Stop` (lines 189–203): close the `stopped` channel (panicking if it
is already closed), call `Close` on every session in the registry, stop
the router, close the listener and return its error.  The result is the
action trace, the returned error, and the new state. -/
def Stop (st : ServerState) :
    Except GoPanic (List StopAction × Option String × ServerState) :=
  if st.stoppedClosed then Except.error GoPanic.closeOfClosedChannel
  else
    Except.ok
      (StopAction.closeStoppedChan ::
        (st.sessions.map StopAction.closeSession
          ++ [StopAction.routerStop, StopAction.listenerClose]),
       st.listenerCloseErr,
       { st with stoppedClosed := true })

/-! ### Concrete inputs used by witnesses and counterexamples -/

/-- A zero/none-filled `ServerOption`, the Go zero value of the struct. -/
def baseOpt : ServerOption :=
  { SocketReadBufferSize := 0
    SocketWriteBufferSize := 0
    SocketSendDelay := false
    ReadTimeout := 0
    WriteTimeout := 0
    Packer := none
    Codec := none
    ReqQueueSize := 0
    RespQueueSize := 0
    DoNotPrintRoutes := false
    WriteAttemptTimes := 0 }

/-- `ServerOption` with both queue sizes negative. -/
def optNegQueues : ServerOption := { baseOpt with ReqQueueSize := -1, RespQueueSize := -1 }

/-- The server built from the zero-valued options. -/
def serverEx : Server := NewServer baseOpt

/-! ### Theorems -/

/-- C4: the claim as stated is false: a configured request-queue size of 0
satisfies `≤ 0` but is kept verbatim (the code tests `< 0`), so the router
queue size is 0, not `DefaultReqQueueSize = 1024`; likewise the
response-queue size. -/
theorem newServer_zero_queue_not_default :
    baseOpt.ReqQueueSize ≤ 0
    ∧ (NewServer baseOpt).reqQueueSize = 0
    ∧ (NewServer baseOpt).reqQueueSize ≠ DefaultReqQueueSize
    ∧ baseOpt.RespQueueSize ≤ 0
    ∧ (NewServer baseOpt).respQueueSize = 0
    ∧ (NewServer baseOpt).respQueueSize ≠ DefaultRespQueueSize := by
  refine ⟨by decide, rfl, by decide, by decide, rfl, by decide⟩

/-- C4 (amended): a configured request-queue size `< 0` is replaced by the
default 1024 (the code assigns the constant `DefaultRespQueueSize`, which
equals `DefaultReqQueueSize`), otherwise the configured value is used
verbatim; symmetrically for the response-queue size. -/
theorem newServer_queue_defaults (opt : ServerOption) :
    ((opt.ReqQueueSize < 0 → (NewServer opt).reqQueueSize = DefaultReqQueueSize)
      ∧ (0 ≤ opt.ReqQueueSize → (NewServer opt).reqQueueSize = opt.ReqQueueSize))
    ∧ ((opt.RespQueueSize < 0 → (NewServer opt).respQueueSize = DefaultRespQueueSize)
      ∧ (0 ≤ opt.RespQueueSize → (NewServer opt).respQueueSize = opt.RespQueueSize)) := by
  unfold NewServer
  constructor
  · constructor
    · intro h
      simp only [if_pos h]
      rfl
    · intro h
      simp only [if_neg (not_lt.mpr h)]
  · constructor
    · intro h
      simp only [if_pos h]
      rfl
    · intro h
      simp only [if_neg (not_lt.mpr h)]

/-- C4 witness: at `optNegQueues` (both sizes −1) both defaults kick in. -/
theorem newServer_queue_defaults_witness :
    (NewServer optNegQueues).reqQueueSize = DefaultReqQueueSize
    ∧ (NewServer optNegQueues).respQueueSize = DefaultRespQueueSize :=
  ⟨(newServer_queue_defaults optNegQueues).1.1 (by decide),
   (newServer_queue_defaults optNegQueues).2.1 (by decide)⟩

/-- C5: a configured write-attempt count `≤ 0` is replaced by the default 1
(`DefaultWriteAttemptTimes`); a positive configured value is used exactly. -/
theorem newServer_writeAttemptTimes (opt : ServerOption) :
    (opt.WriteAttemptTimes ≤ 0 → (NewServer opt).writeAttemptTimes = 1)
    ∧ (0 < opt.WriteAttemptTimes →
        (NewServer opt).writeAttemptTimes = opt.WriteAttemptTimes) := by
  unfold NewServer
  constructor
  · intro h
    simp only [if_pos h]
    rfl
  · intro h
    simp only [if_neg (not_le.mpr h)]

/-- C5 witness: count 0 becomes 1; count 7 is kept. -/
theorem newServer_writeAttemptTimes_witness :
    (NewServer baseOpt).writeAttemptTimes = 1
    ∧ (NewServer { baseOpt with WriteAttemptTimes := 7 }).writeAttemptTimes = 7 :=
  ⟨(newServer_writeAttemptTimes baseOpt).1 (by decide),
   (newServer_writeAttemptTimes { baseOpt with WriteAttemptTimes := 7 }).2 (by decide)⟩

/-- A server state with two live sessions and a failing listener close. -/
def stEx : ServerState :=
  { stoppedClosed := false, sessions := [1, 2], listenerCloseErr := some "close fail" }

/-- C1: `Stop` emits `closeStoppedChan` first, then (within the first `k`
actions) a `closeSession` for every registered session, and its final two
actions are `routerStop` then `listenerClose`; it returns the error from
closing the listener.  Since the trace precedes the return, all sessions
have been told to close and the router has stopped before `Stop` returns. -/
theorem stop_shutdown_order (st : ServerState) (h : st.stoppedClosed = false) :
    ∃ tr st2, Stop st = Except.ok (tr, st.listenerCloseErr, st2)
      ∧ tr.head? = some StopAction.closeStoppedChan
      ∧ ∃ k, (∀ sid ∈ st.sessions, StopAction.closeSession sid ∈ tr.take k)
          ∧ tr.drop k = [StopAction.routerStop, StopAction.listenerClose] := by
  refine ⟨StopAction.closeStoppedChan ::
      (st.sessions.map StopAction.closeSession
        ++ [StopAction.routerStop, StopAction.listenerClose]),
    { st with stoppedClosed := true }, ?_, rfl, st.sessions.length + 1, ?_, ?_⟩
  · simp [Stop, h]
  · intro sid hsid
    rw [List.take_succ_cons]
    have hlen : (st.sessions.map StopAction.closeSession).length = st.sessions.length :=
      List.length_map _ _
    rw [← hlen, List.take_left]
    exact List.mem_cons_of_mem _ (List.mem_map_of_mem _ hsid)
  · rw [List.drop_succ_cons]
    have hlen : (st.sessions.map StopAction.closeSession).length = st.sessions.length :=
      List.length_map _ _
    rw [← hlen, List.drop_left]

/-- C1 witness: the shutdown order at a state with sessions 1 and 2 and a
failing listener close. -/
theorem stop_shutdown_order_witness :
    ∃ tr st2, Stop stEx = Except.ok (tr, stEx.listenerCloseErr, st2)
      ∧ tr.head? = some StopAction.closeStoppedChan
      ∧ ∃ k, (∀ sid ∈ stEx.sessions, StopAction.closeSession sid ∈ tr.take k)
          ∧ tr.drop k = [StopAction.routerStop, StopAction.listenerClose] :=
  stop_shutdown_order stEx rfl

/-- C9: a first `Stop` succeeds and leaves the stopped channel closed, and
a second `Stop` on the resulting state panics (close of closed channel). -/
theorem stop_twice_panics (st : ServerState) (h : st.stoppedClosed = false) :
    ∃ tr err st2, Stop st = Except.ok (tr, err, st2)
      ∧ Stop st2 = Except.error GoPanic.closeOfClosedChannel := by
  refine ⟨StopAction.closeStoppedChan ::
      (st.sessions.map StopAction.closeSession
        ++ [StopAction.routerStop, StopAction.listenerClose]),
    st.listenerCloseErr, { st with stoppedClosed := true }, ?_, ?_⟩
  · simp [Stop, h]
  · simp [Stop]

/-- C9 witness: double `Stop` from the example state. -/
theorem stop_twice_panics_witness :
    ∃ tr err st2, Stop stEx = Except.ok (tr, err, st2)
      ∧ Stop st2 = Except.error GoPanic.closeOfClosedChannel :=
  stop_twice_panics stEx rfl

/-- C2: in the `handleConn` trace, any occurrence of `sessionsRemove`
(registry removal) or `spawnOnSessionClose` (the close hook) is strictly
preceded by `waitSessionClosed`, the blocking receive on the `closed`
channel of the session — for every combination of hook configuration. -/
theorem handleConn_remove_after_close (c l : Bool) (i : Fin (handleConn c l).length)
    (h : (handleConn c l).get i = HAction.sessionsRemove
       ∨ (handleConn c l).get i = HAction.spawnOnSessionClose) :
    ∃ j : Fin (handleConn c l).length, j.val < i.val
      ∧ (handleConn c l).get j = HAction.waitSessionClosed := by
  revert i h
  cases c <;> cases l <;> decide

/-- C2 witness: with both hooks set, `sessionsRemove` sits at index 6 and
`waitSessionClosed` occurs strictly earlier. -/
theorem handleConn_remove_after_close_witness :
    ∃ j : Fin (handleConn true true).length, j.val < 6
      ∧ (handleConn true true).get j = HAction.waitSessionClosed :=
  handleConn_remove_after_close true true ⟨6, by decide⟩ (Or.inl (by decide))

/-- A temporary `net.Error` as delivered by `Accept`. -/
def errTemp : NetErr := { msg := "tmp", isNetError := true, temporary := true }

/-- A non-transient accept error. -/
def errFatal : NetErr := { msg := "boom", isNetError := false, temporary := false }

/-- Iteration environment: running server, `Accept` fails temporarily. -/
def envTemp : AcceptEnv :=
  { stoppedAtTop := false, result := Except.error errTemp, stoppedAfterErr := false }

/-- Iteration environment: running server, `Accept` fails fatally. -/
def envFatal : AcceptEnv :=
  { stoppedAtTop := false, result := Except.error errFatal, stoppedAfterErr := false }

/-- C3: when `Accept` fails while the server is not stopped, a temporary
`net.Error` makes the loop sleep `tempErrDelay` and continue with the
remaining iterations, while any other error makes the loop return at once
with the wrapped accept error, which `Serve` hands to its caller. -/
theorem acceptLoop_accept_error_handling (s : Server) (err : NetErr) (env : AcceptEnv)
    (rest : List AcceptEnv) (htop : env.stoppedAtTop = false)
    (hres : env.result = Except.error err) (hstop : env.stoppedAfterErr = false) :
    (err.isNetError = true ∧ err.temporary = true →
      acceptLoop s (env :: rest)
        = (Action.sleep tempErrDelay :: (acceptLoop s rest).1, (acceptLoop s rest).2))
    ∧ (¬(err.isNetError = true ∧ err.temporary = true) →
      acceptLoop s (env :: rest) = ([], LoopResult.acceptErr ("accept err: " ++ err.msg))
      ∧ (Serve s (ServeEnv.ok (env :: rest))).2
          = ServeResult.fromLoop (LoopResult.acceptErr ("accept err: " ++ err.msg))) := by
  constructor
  · intro hT
    simp [acceptLoop, htop, hres, hstop, hT.1, hT.2]
  · intro hT
    have h1 : acceptLoop s (env :: rest)
        = ([], LoopResult.acceptErr ("accept err: " ++ err.msg)) := by
      simp only [acceptLoop, htop, hres, hstop, Bool.false_eq_true, if_false]
      rw [if_neg hT]
    exact ⟨h1, by simp [Serve, h1]⟩

/-- C3 witness: one temporary failure sleeps and leaves the loop running;
one fatal failure stops the loop with the wrapped error. -/
theorem acceptLoop_accept_error_handling_witness :
    acceptLoop serverEx [envTemp] = ([Action.sleep tempErrDelay], LoopResult.running)
    ∧ acceptLoop serverEx [envFatal] = ([], LoopResult.acceptErr "accept err: boom") := by
  constructor
  · exact ((acceptLoop_accept_error_handling serverEx errTemp envTemp [] rfl rfl rfl).1
      ⟨rfl, rfl⟩).trans (by decide)
  · exact (((acceptLoop_accept_error_handling serverEx errFatal envFatal [] rfl rfl rfl).2
      (by decide)).1).trans (by decide)

/-- An iteration where the stopped channel is already closed at the top. -/
def envStopTop : AcceptEnv :=
  { stoppedAtTop := true, result := Except.error errFatal, stoppedAfterErr := true }

/-- An iteration where `Accept` fails and the stopped check after the
failure observes the closed channel. -/
def envStopAfter : AcceptEnv :=
  { stoppedAtTop := false, result := Except.error errFatal, stoppedAfterErr := true }

/-- C8: once the stopped signal is observed, the loop returns the
sentinel `ErrServerStopped` — both at the top-of-iteration check and at
the check after a failed `Accept`, whatever the raw accept error was. -/
theorem acceptLoop_returns_sentinel_when_stopped (s : Server) (env : AcceptEnv)
    (rest : List AcceptEnv) :
    (env.stoppedAtTop = true → acceptLoop s (env :: rest) = ([], LoopResult.errServerStopped))
    ∧ (∀ err : NetErr, env.stoppedAtTop = false → env.result = Except.error err →
        env.stoppedAfterErr = true →
        acceptLoop s (env :: rest) = ([], LoopResult.errServerStopped)) := by
  constructor
  · intro h
    simp [acceptLoop, h]
  · intro err htop hres hstop
    simp [acceptLoop, htop, hres, hstop]

/-- C8 witness: both stopped checks yield the sentinel, not the raw
`"boom"` accept error. -/
theorem acceptLoop_returns_sentinel_when_stopped_witness :
    acceptLoop serverEx [envStopTop] = ([], LoopResult.errServerStopped)
    ∧ acceptLoop serverEx [envStopAfter] = ([], LoopResult.errServerStopped) :=
  ⟨(acceptLoop_returns_sentinel_when_stopped serverEx envStopTop []).1 rfl,
   (acceptLoop_returns_sentinel_when_stopped serverEx envStopAfter []).2 errFatal rfl rfl rfl⟩

/-- C6: when address resolution or listening fails, `Serve` returns the
error with an empty action trace: `router.consumeRequest` is never
spawned and the accept loop never runs; nothing is retried. -/
theorem serve_returns_startup_errors (s : Server) (m : String) :
    Serve s (ServeEnv.resolveErr m) = ([], ServeResult.resolveError m)
    ∧ Serve s (ServeEnv.listenErr m) = ([], ServeResult.listenError m) :=
  ⟨rfl, rfl⟩

/-- A connection whose socket-option setters all succeed. -/
def connOk : Conn :=
  { id := 0, setReadBufferErr := none, setWriteBufferErr := none, setNoDelayErr := none }

/-- A server configured with both buffer sizes and the send-delay flag. -/
def serverBufEx : Server :=
  NewServer { baseOpt with
    SocketReadBufferSize := 4096, SocketWriteBufferSize := 8192, SocketSendDelay := true }

/-- C7: on a connection whose setters succeed, the per-connection body
emits `setReadBuffer` exactly when the configured size is `> 0`, then
`setWriteBuffer` when `> 0`, then `SetNoDelay(false)` when the send-delay
flag is set, then spawns `handleConn`; in `handleConn`, the session is
constructed (index 0) and registered (index 1) before the inbound task is
started, which precedes the outbound task, both before the close wait. -/
theorem conn_setup_order (s : Server) (c : Conn)
    (h1 : c.setReadBufferErr = none) (h2 : c.setWriteBufferErr = none)
    (h3 : c.setNoDelayErr = none) :
    processConn s c =
      ((if s.socketReadBufferSize > 0
          then [Action.setReadBuffer c.id s.socketReadBufferSize] else [])
        ++ (if s.socketWriteBufferSize > 0
          then [Action.setWriteBuffer c.id s.socketWriteBufferSize] else [])
        ++ (if s.socketSendDelay then [Action.setNoDelay c.id false] else [])
        ++ [Action.spawnHandleConn c.id], none)
    ∧ ∀ hc hl : Bool,
        (handleConn hc hl).take 2 = [HAction.newSession, HAction.sessionsAdd]
        ∧ ∃ j k : Fin (handleConn hc hl).length,
            (handleConn hc hl).get j = HAction.spawnReadInbound
            ∧ (handleConn hc hl).get k = HAction.spawnWriteOutbound
            ∧ 1 < j.val ∧ j.val < k.val
            ∧ ∀ w : Fin (handleConn hc hl).length,
                (handleConn hc hl).get w = HAction.waitSessionClosed → k.val < w.val := by
  constructor
  · unfold processConn
    split_ifs with hr hw hd <;> simp [h1, h2, h3]
  · intro hc hl
    cases hc <;> cases hl <;> decide

/-- C7 witness: with both buffers and the delay flag configured, the body
applies the three options in order and then spawns `handleConn`. -/
theorem conn_setup_order_witness :
    processConn serverBufEx connOk =
      ([Action.setReadBuffer 0 4096, Action.setWriteBuffer 0 8192,
        Action.setNoDelay 0 false, Action.spawnHandleConn 0], none) :=
  ((conn_setup_order serverBufEx connOk rfl rfl rfl).1).trans (by decide)

/-- A server configured with only a read-buffer size. -/
def serverReadBuf : Server := NewServer { baseOpt with SocketReadBufferSize := 4096 }

/-- A connection whose `SetReadBuffer` fails. -/
def connBadRead : Conn :=
  { id := 1, setReadBufferErr := some "boom", setWriteBufferErr := none, setNoDelayErr := none }

/-- Iteration environment delivering `connBadRead` on a running server. -/
def envBadRead : AcceptEnv :=
  { stoppedAtTop := false, result := Except.ok connBadRead, stoppedAfterErr := false }

/-- C10: when applying a configured socket option to one accepted
connection fails, `acceptLoop` returns that wrapped error immediately —
the remaining iterations `rest` never run, so no further connections are
accepted — and `Serve` returns whatever result the loop produced. -/
theorem acceptLoop_setopt_failure_terminates (s : Server) (c : Conn) (env : AcceptEnv)
    (rest : List AcceptEnv) (e : String)
    (htop : env.stoppedAtTop = false) (hres : env.result = Except.ok c) :
    (s.socketReadBufferSize > 0 → c.setReadBufferErr = some e →
      acceptLoop s (env :: rest)
        = ([Action.setReadBuffer c.id s.socketReadBufferSize],
            LoopResult.setReadBufferErr ("conn set read buffer err: " ++ e)))
    ∧ (s.socketWriteBufferSize > 0 → c.setReadBufferErr = none →
        c.setWriteBufferErr = some e →
      acceptLoop s (env :: rest)
        = ((if s.socketReadBufferSize > 0
            then [Action.setReadBuffer c.id s.socketReadBufferSize] else [])
            ++ [Action.setWriteBuffer c.id s.socketWriteBufferSize],
            LoopResult.setWriteBufferErr ("conn set write buffer err: " ++ e)))
    ∧ (s.socketSendDelay = true → c.setReadBufferErr = none → c.setWriteBufferErr = none →
        c.setNoDelayErr = some e →
      acceptLoop s (env :: rest)
        = ((if s.socketReadBufferSize > 0
            then [Action.setReadBuffer c.id s.socketReadBufferSize] else [])
            ++ (if s.socketWriteBufferSize > 0
              then [Action.setWriteBuffer c.id s.socketWriteBufferSize] else [])
            ++ [Action.setNoDelay c.id false],
            LoopResult.setNoDelayErr ("conn set no delay err: " ++ e)))
    ∧ ∀ loopEnv,
        (Serve s (ServeEnv.ok loopEnv)).2 = ServeResult.fromLoop (acceptLoop s loopEnv).2 := by
  refine ⟨?_, ?_, ?_, ?_⟩
  · intro hgt herr
    simp [acceptLoop, htop, hres, processConn, hgt, herr]
  · intro hgt hnone herr
    simp only [acceptLoop, htop, hres, Bool.false_eq_true, if_false]
    unfold processConn
    split_ifs with hr <;> simp [hnone, hgt, herr]
  · intro hdelay hnone1 hnone2 herr
    simp only [acceptLoop, htop, hres, Bool.false_eq_true, if_false]
    unfold processConn
    split_ifs with hr hw <;> simp [hnone1, hnone2, hdelay, herr]
  · intro loopEnv
    simp [Serve]

/-- C10 witness: a failing `SetReadBuffer` on a server with a configured
read buffer ends the loop with the wrapped error, accepting nothing else. -/
theorem acceptLoop_setopt_failure_terminates_witness :
    acceptLoop serverReadBuf [envBadRead, envBadRead]
      = ([Action.setReadBuffer 1 4096],
         LoopResult.setReadBufferErr "conn set read buffer err: boom") :=
  ((acceptLoop_setopt_failure_terminates serverReadBuf connBadRead envBadRead
      [envBadRead] "boom" rfl rfl).1 (by decide) rfl).trans (by decide)

end EasyTCP
